import Mathlib

/-!
# ModernMagic: Body and Bullet

A shallow embedding of `src/src/Body.h` and `src/src/Bullet.cpp`.

* The arithmetic of the C++ type `float` is a parameter of the embedding, the class `FloatOps`:
  the operations `+`, `-`, `*`, `<` and the conversion from `int` that the source applies to
  `float` values.  It has two instances.  `Binary32` is IEEE 754 binary32 with rounding to
  nearest, ties to even, every operation rounded to binary32 (the two zeros are one value and
  NaN payloads are not told apart).  A linearly ordered field is exact arithmetic, without
  rounding.
* A C++ object that is mutated in place becomes a value, and a mutating member
  function becomes a function returning the new value.
* Pointers (`BodyType*`, the rebound board) are addresses: `Option Nat`, with
  `none` for `nullptr`.  The applied timeline is owned by its body and is
  carried as a value of an arbitrary type `T`.
* The state of the base class `UpdatableObject` (`Object.h`, not part of the
  sources at hand) is not represented.
-/

namespace ModernMagic

/-! ## Arithmetic of `float` -/

/-- The operations on `float` that Body.h and Bullet.cpp use: `+`, `-`, `*`, `<`, and the
conversion of an `int` (the literal in `normal * 2`). -/
class FloatOps (F : Type) where
  add : F → F → F
  sub : F → F → F
  mul : F → F → F
  lt : F → F → Bool
  ofInt : Int → F

/-- Exact arithmetic: the operations of a linearly ordered field, nothing is rounded. -/
instance FloatOps.exact {F : Type} [LinearOrderedField F] : FloatOps F where
  add x y := x + y
  sub x y := x - y
  mul x y := x * y
  lt x y := decide (x < y)
  ofInt i := (i : F)

/-- A value of the IEEE 754 binary32 format.  `fin k` is the number `k * 2^(-149)`: every finite
binary32 number is an integer multiple of the smallest subnormal `2^(-149)`.  `inf neg` is the
infinity of that sign, `nan` a NaN. -/
inductive Binary32 where
  | fin (k : Int)
  | inf (neg : Bool)
  | nan
deriving DecidableEq

namespace Binary32

/-- Halving `n` until it is below `2^24`, at most `fuel` times: the number of halvings. -/
def excessAux : Nat → Nat → Nat
  | 0, _ => 0
  | fuel + 1, n => if n < 2 ^ 24 then 0 else excessAux fuel (n / 2) + 1

/-- The number of low bits that `n` has beyond 24 significant bits. -/
def excess (n : Nat) : Nat := excessAux n n

/-- The integer `k`, in units of `2^(-149)`, is a finite binary32 number: its magnitude has at
most 24 significant bits and is at most the largest finite number `(2^24 - 1) * 2^253`. -/
def Representable (k : Int) : Prop :=
  k.natAbs % 2 ^ excess k.natAbs = 0 ∧ k.natAbs < 2 ^ 24 * 2 ^ 253

instance Representable.decidable (k : Int) : Decidable (Representable k) := by
  unfold Representable
  infer_instance

/-- Rounding to nearest, ties to even, of the magnitude `n` given in units of `2^(-149-s)`; the
result is in units of `2^(-149)`.  The low `e` bits are dropped, `e` being what is needed to reach
the unit `2^(-149)` and 24 significant bits; the quotient goes up when the dropped part is above
a half, or is a half and the quotient is odd. -/
def roundMag (s n : Nat) : Nat :=
  let e := max s (excess n)
  let q := n / 2 ^ e
  let r := n % 2 ^ e
  if 2 ^ e < 2 * r ∨ (2 * r = 2 ^ e ∧ q % 2 = 1) then (q + 1) * 2 ^ (e - s) else q * 2 ^ (e - s)

/-- The binary32 value of the exact result `x`, given in units of `2^(-149-s)`: rounded to
nearest, and infinite when the rounded magnitude reaches `2^128`. -/
def roundAt (s : Nat) (x : Int) : Binary32 :=
  let m := roundMag s x.natAbs
  if 2 ^ 24 * 2 ^ 253 ≤ m then inf (decide (x < 0))
  else fin (if x < 0 then -(m : Int) else (m : Int))

/-- Unary minus. -/
def neg : Binary32 → Binary32
  | fin k => fin (-k)
  | inf n => inf (!n)
  | nan => nan

/-- Binary32 addition: the exact sum, rounded. -/
def add : Binary32 → Binary32 → Binary32
  | fin a, fin b => roundAt 0 (a + b)
  | fin _, inf n => inf n
  | inf n, fin _ => inf n
  | inf n, inf m => if n = m then inf n else nan
  | _, _ => nan

/-- Binary32 subtraction. -/
def sub (x y : Binary32) : Binary32 := add x (neg y)

/-- Binary32 multiplication: the exact product, which is in units of `2^(-298)`, rounded. -/
def mul : Binary32 → Binary32 → Binary32
  | fin a, fin b => roundAt 149 (a * b)
  | fin a, inf n => if a = 0 then nan else inf (decide (a < 0) != n)
  | inf n, fin b => if b = 0 then nan else inf (n != decide (b < 0))
  | inf n, inf m => inf (n != m)
  | _, _ => nan

/-- The comparison `<` of binary32: false as soon as an operand is a NaN. -/
def lt : Binary32 → Binary32 → Bool
  | fin a, fin b => decide (a < b)
  | fin _, inf n => !n
  | inf n, fin _ => n
  | inf n, inf m => n && !m
  | _, _ => false

/-- Conversion of an `int` to `float`. -/
def ofInt (i : Int) : Binary32 := roundAt 0 (i * ((2 ^ 149 : Nat) : Int))

/-- The integer `m * 2^e`, in units of `2^(-149)`: the number `m * 2^(e-149)`. -/
def units (m : Int) (e : Nat) : Int := m * ((2 ^ e : Nat) : Int)

/-- The binary32 value `m * 2^(e-149)`; `lit 1 149` is 1 and `lit 13421773 122` is `0.1f`. -/
def lit (m : Int) (e : Nat) : Binary32 := fin (units m e)

end Binary32

/-- Binary32 arithmetic, every operation rounded to binary32. -/
instance FloatOps.binary32 : FloatOps Binary32 where
  add := Binary32.add
  sub := Binary32.sub
  mul := Binary32.mul
  lt := Binary32.lt
  ofInt := Binary32.ofInt

/-! ## Infrastructure types used by Body.h -/

/-- Two-component vector; the members `X` and `Y` are the ones Body.h assigns. -/
structure Vector2 (F : Type) where
  X : F
  Y : F

/-- Colour with the channels read by the renderer loop of Main.cpp, plus alpha. -/
structure Color (F : Type) where
  R : F
  G : F
  B : F
  A : F

/-- Axis-aligned box, built from two corners as in `BoundingBox(Vector2, Vector2)`. -/
structure BoundingBox (F : Type) where
  Min : Vector2 F
  Max : Vector2 F

/-- Line segment, built from two end points. -/
structure Segment (F : Type) where
  P1 : Vector2 F
  P2 : Vector2 F

/-! ## Body (Body.h) -/

/-- Data members of `Body`, in the order Body.h declares them. -/
structure Body (F T : Type) where
  _position : Vector2 F
  _texture : Int
  _color : Color F
  _scale : F
  _layer : Int
  _radius : F
  _angle : F
  _speed : F
  _angleAddition : F
  _speedAddition : F
  _isFrozen : Bool
  _destroyWhenMoveOffScreen : Bool
  _destroyWhenTimelineEnd : Bool
  _appliedTimeline : Option T
  _isBullet : Bool
  _calculatedOffset : Vector2 F
  _opacity : F
  _isNeedToCal : Bool

variable {F T : Type}

namespace Body

/-! ### Accessors generated by the property macros

`MM_PROPERTY_PBV`, `MM_PROPERTY_PBR` and `MM_PROPERTY_BOOL` are not defined in
the sources at hand.  Each is used with a type, a member and a name only, for
members as different as `_texture`, `_layer`, `_scale`, `_radius` and
`_opacity`, so the accessors it generates cannot depend on the property: the
getter returns the member and the setter stores its argument. -/

/-- Modelled from the spec: getter of `MM_PROPERTY_PBR(Vector2, _position, Position)`;
the macro is missing, the getter returns the member. -/
def GetPosition (b : Body F T) : Vector2 F := b._position

/-- Modelled from the spec: setter of `MM_PROPERTY_PBR(Vector2, _position, Position)`;
the macro is missing, the setter stores its argument ("Set then Get returns the value unchanged"). -/
def SetPositionV (b : Body F T) (v : Vector2 F) : Body F T := { b with _position := v }

/-- Body.h 43-46: `_position.X = x; _position.Y = y;`. -/
def SetPosition (b : Body F T) (x y : F) : Body F T :=
  let b1 : Body F T := { b with _position := { b._position with X := x } }
  { b1 with _position := { b1._position with Y := y } }

/-- Body.h 47-49: `_position.X = x;`. -/
def SetX (b : Body F T) (x : F) : Body F T :=
  { b with _position := { b._position with X := x } }

/-- Body.h 50-52: `_position.Y = y;`. -/
def SetY (b : Body F T) (y : F) : Body F T :=
  { b with _position := { b._position with Y := y } }

/-- Modelled from the spec: getter of `MM_PROPERTY_PBV(int, _texture, Texture)` (macro missing). -/
def GetTexture (b : Body F T) : Int := b._texture

/-- Modelled from the spec: setter of `MM_PROPERTY_PBV(int, _texture, Texture)` (macro missing). -/
def SetTexture (b : Body F T) (v : Int) : Body F T := { b with _texture := v }

/-- Modelled from the spec: getter of `MM_PROPERTY_PBR(Color, _color, Color)` (macro missing). -/
def GetColor (b : Body F T) : Color F := b._color

/-- Modelled from the spec: setter of `MM_PROPERTY_PBR(Color, _color, Color)` (macro missing). -/
def SetColor (b : Body F T) (v : Color F) : Body F T := { b with _color := v }

/-- Modelled from the spec: getter of `MM_PROPERTY_PBV(float, _scale, Scale)` (macro missing). -/
def GetScale (b : Body F T) : F := b._scale

/-- Modelled from the spec: setter of `MM_PROPERTY_PBV(float, _scale, Scale)` (macro missing). -/
def SetScale (b : Body F T) (v : F) : Body F T := { b with _scale := v }

/-- Modelled from the spec: getter of `MM_PROPERTY_PBV(int, _layer, Layer)` (macro missing). -/
def GetLayer (b : Body F T) : Int := b._layer

/-- Modelled from the spec: setter of `MM_PROPERTY_PBV(int, _layer, Layer)` (macro missing). -/
def SetLayer (b : Body F T) (v : Int) : Body F T := { b with _layer := v }

/-- Modelled from the spec: getter of `MM_PROPERTY_PBV(float, _radius, Radius)` (macro missing). -/
def GetRadius (b : Body F T) : F := b._radius

/-- Modelled from the spec: setter of `MM_PROPERTY_PBV(float, _radius, Radius)`; the macro is
missing.  "Set then Get returns the value unchanged", a clamping setter being one that is
"documented" as clamping, and Body.h documents none: the setter stores its argument, like the
`SetScale` and `SetLayer` that the same macro generates. -/
def SetRadius (b : Body F T) (v : F) : Body F T := { b with _radius := v }

/-- Modelled from the spec: getter of `MM_PROPERTY_PBV_US(float, _angle, Angle)` (macro missing). -/
def GetAngle (b : Body F T) : F := b._angle

/-- Modelled from the spec: `Body::SetAngle`, declared by `MM_PROPERTY_PBV_US` and defined in
Body.cpp, which is missing.  The spec keeps a cached offset "recomputed from speed/angle
whenever either changes" behind a "dirty" flag: the setter stores the angle and raises
`_isNeedToCal`. -/
def SetAngle (b : Body F T) (v : F) : Body F T := { b with _angle := v, _isNeedToCal := true }

/-- Modelled from the spec: getter of `MM_PROPERTY_PBV_US(float, _speed, Speed)` (macro missing). -/
def GetSpeed (b : Body F T) : F := b._speed

/-- Modelled from the spec: `Body::SetSpeed`, declared by `MM_PROPERTY_PBV_US` and defined in
Body.cpp, which is missing; like `SetAngle` it stores the value and raises `_isNeedToCal`. -/
def SetSpeed (b : Body F T) (v : F) : Body F T := { b with _speed := v, _isNeedToCal := true }

/-- Modelled from the spec: getter of `MM_PROPERTY_PBV(float, _angleAddition, AngleAddition)`. -/
def GetAngleAddition (b : Body F T) : F := b._angleAddition

/-- Modelled from the spec: setter of `MM_PROPERTY_PBV(float, _angleAddition, AngleAddition)`. -/
def SetAngleAddition (b : Body F T) (v : F) : Body F T := { b with _angleAddition := v }

/-- Modelled from the spec: getter of `MM_PROPERTY_PBV(float, _speedAddition, SpeedAddition)`. -/
def GetSpeedAddition (b : Body F T) : F := b._speedAddition

/-- Modelled from the spec: setter of `MM_PROPERTY_PBV(float, _speedAddition, SpeedAddition)`. -/
def SetSpeedAddition (b : Body F T) (v : F) : Body F T := { b with _speedAddition := v }

/-- Modelled from the spec: getter of `MM_PROPERTY_BOOL(_isFrozen, IsFrozen)` (macro missing). -/
def IsFrozen (b : Body F T) : Bool := b._isFrozen

/-- Modelled from the spec: setter of `MM_PROPERTY_BOOL(_isFrozen, IsFrozen)` (macro missing). -/
def SetIsFrozen (b : Body F T) (v : Bool) : Body F T := { b with _isFrozen := v }

/-- Modelled from the spec: getter of
`MM_PROPERTY_BOOL(_destroyWhenMoveOffScreen, IsDestroyWhenMoveOffScreen)` (macro missing). -/
def IsDestroyWhenMoveOffScreen (b : Body F T) : Bool := b._destroyWhenMoveOffScreen

/-- Modelled from the spec: setter of
`MM_PROPERTY_BOOL(_destroyWhenMoveOffScreen, IsDestroyWhenMoveOffScreen)` (macro missing). -/
def SetIsDestroyWhenMoveOffScreen (b : Body F T) (v : Bool) : Body F T :=
  { b with _destroyWhenMoveOffScreen := v }

/-- Modelled from the spec: getter of
`MM_PROPERTY_BOOL(_destroyWhenTimelineEnd, IsDestroyWhenTimelineEnd)` (macro missing). -/
def IsDestroyWhenTimelineEnd (b : Body F T) : Bool := b._destroyWhenTimelineEnd

/-- Modelled from the spec: setter of
`MM_PROPERTY_BOOL(_destroyWhenTimelineEnd, IsDestroyWhenTimelineEnd)` (macro missing). -/
def SetIsDestroyWhenTimelineEnd (b : Body F T) (v : Bool) : Body F T :=
  { b with _destroyWhenTimelineEnd := v }

/-- Modelled from the spec: getter of `MM_PROPERTY_PBV_US(Timeline*, _appliedTimeline, AppliedTimeline)`. -/
def GetAppliedTimeline (b : Body F T) : Option T := b._appliedTimeline

/-- Modelled from the spec: getter of `MM_PROPERTY_BOOL_NS(_isBullet, IsBullet)` (macro missing). -/
def IsBullet (b : Body F T) : Bool := b._isBullet

/-- Body.h 178: `void SetIsReboundable(bool v) { _isBullet = v; }` (protected). -/
def SetIsReboundable (b : Body F T) (v : Bool) : Body F T := { b with _isBullet := v }

/-- Modelled from the spec: getter of `MM_PROPERTY_PBR_NS(Vector2, _calculatedOffset, CalculatedOffset)`. -/
def GetCalculatedOffset (b : Body F T) : Vector2 F := b._calculatedOffset

/-- Modelled from the spec: getter of `MM_PROPERTY_PBV(float, _opacity, Opacity)` (macro missing). -/
def GetOpacity (b : Body F T) : F := b._opacity

/-- Body.h 172-174: `body->SetAngle(normal * 2 - body->GetAngle());`. -/
def Rebound [FloatOps F] (body : Body F T) (normal : F) : Body F T :=
  body.SetAngle (FloatOps.sub (FloatOps.mul normal (FloatOps.ofInt 2)) body.GetAngle)

/-! ### The setters of the property macro, with the macro as a parameter

`MM_PROPERTY_PBV` is given a type, a member and a name.  The setters it generates for the
`float` members `_scale` and `_opacity` are therefore one and the same code up to the
member they assign: the value left in the member is one function `store old v` of the value `old`
the member holds and of the argument `v`. -/

end Body

/-! ## Bullet (Bullet.cpp) -/

/-- A `Bullet` is a `Body` with a body type and a rebound board, both held by pointer. -/
structure Bullet (F T : Type) extends Body F T where
  _type : Option Nat
  _colReBoard : Option Nat

namespace Bullet

/-- Bullet.cpp 51-54:
`return Vector2::Distance(this->GetPosition(), pos) < (this->GetRadius() + r);`.
`Vector2::Distance` is not in the sources at hand and is a parameter. -/
def IsCollided [FloatOps F] (Distance : Vector2 F → Vector2 F → F)
    (self : Bullet F T) (pos : Vector2 F) (r : F) : Bool :=
  FloatOps.lt (Distance self.GetPosition pos) (FloatOps.add self.GetRadius r)

/-- Bullet.cpp 41-44: `return this->IsCollided(other->GetPosition(), other->GetRadius());`. -/
def IsCollidedBullet [FloatOps F] (Distance : Vector2 F → Vector2 F → F)
    (self other : Bullet F T) : Bool :=
  self.IsCollided Distance other.GetPosition other.GetRadius

/-- Bullet.cpp 46-49: `return rect.Intersects(this->GetPosition(), this->GetRadius());`.
`BoundingBox::Intersects` is not in the sources at hand and is a parameter. -/
def IsCollidedBox (Intersects : BoundingBox F → Vector2 F → F → Bool)
    (self : Bullet F T) (rect : BoundingBox F) : Bool :=
  Intersects rect self.GetPosition self.GetRadius

/-- Bullet.cpp 56-59: `return seg.Intersects(this->GetPosition(), this->GetRadius());`.
`Segment::Intersects` is not in the sources at hand and is a parameter. -/
def IsCollidedSegment (Intersects : Segment F → Vector2 F → F → Bool)
    (self : Bullet F T) (seg : Segment F) : Bool :=
  Intersects seg self.GetPosition self.GetRadius

end Bullet

/-! ## Euclidean distance -/

/-- Squared Euclidean distance of two points, from their coordinates. -/
def DistanceSquared [LinearOrderedField F] (p q : Vector2 F) : F :=
  (p.X - q.X) * (p.X - q.X) + (p.Y - q.Y) * (p.Y - q.Y)

/-- Modelled from the spec: what the missing `Vector2::Distance` computes, "Euclidean distance
between centers": a value that is not negative and whose square is the squared distance. -/
def IsEuclidean [LinearOrderedField F] (Distance : Vector2 F → Vector2 F → F) : Prop :=
  ∀ p q : Vector2 F, 0 ≤ Distance p q ∧ Distance p q * Distance p q = DistanceSquared p q

/-- At the points `p` and `q`, `Distance` returns the Euclidean distance, and that distance is
the binary32 number `d` (in units of `2^(-149)`): the coordinates are finite, `d` is not
negative and its square is the sum of the squares of the coordinate differences. -/
def Binary32.ExactDistance (Distance : Vector2 Binary32 → Vector2 Binary32 → Binary32)
    (p q : Vector2 Binary32) (d : Int) : Prop :=
  Distance p q = Binary32.fin d ∧ 0 ≤ d ∧ Binary32.Representable d ∧
    ∃ px py qx qy : Int, p = ⟨Binary32.fin px, Binary32.fin py⟩ ∧
      q = ⟨Binary32.fin qx, Binary32.fin qy⟩ ∧
      d * d = (px - qx) * (px - qx) + (py - qy) * (py - qy)

/-! ## Copying and cloning (Bullet.cpp 16-21, 31-34) -/

/-- Modelled from the spec: the copy constructor `Body::Body(const Body&)`, declared in Body.h
and defined in Body.cpp, which is missing.  A clone "copies all property values" and
deep-copies the applied timeline; the timeline being carried by value, the copy is memberwise. -/
def Body.copy (other : Body F T) : Body F T :=
  { _position := other._position, _texture := other._texture, _color := other._color,
    _scale := other._scale, _layer := other._layer, _radius := other._radius,
    _angle := other._angle, _speed := other._speed, _angleAddition := other._angleAddition,
    _speedAddition := other._speedAddition, _isFrozen := other._isFrozen,
    _destroyWhenMoveOffScreen := other._destroyWhenMoveOffScreen,
    _destroyWhenTimelineEnd := other._destroyWhenTimelineEnd,
    _appliedTimeline := other._appliedTimeline, _isBullet := other._isBullet,
    _calculatedOffset := other._calculatedOffset, _opacity := other._opacity,
    _isNeedToCal := other._isNeedToCal }

/-- Bullet.cpp 16-21: `Body(other), _type(other._type), _colReBoard(other._colReBoard)`.
`InitProperties` registers the setter of "Type" with the base class, whose state is not
represented. -/
def Bullet.copy (other : Bullet F T) : Bullet F T :=
  { toBody := Body.copy other.toBody, _type := other._type, _colReBoard := other._colReBoard }

/-- Modelled from the spec: `Pool<T>`, which is missing: a "free-list of pre-allocated T slots".
A slot is free (`none`) or holds a live object; a handle is the index of a slot. -/
structure Pool (α : Type) where
  slots : List (Option α)

/-- The live object in slot `h`, if there is one. -/
def Pool.liveAt {α : Type} : List (Option α) → Nat → Option α
  | [], _ => none
  | s :: _, 0 => s
  | _ :: rest, h + 1 => Pool.liveAt rest h

/-- Storing `v` in the first free slot, or in a new slot at the end when none is free. -/
def Pool.place {α : Type} : List (Option α) → α → List (Option α) × Nat
  | [], v => ([some v], 0)
  | none :: rest, v => (some v :: rest, 0)
  | some x :: rest, v => (some x :: (Pool.place rest v).1, (Pool.place rest v).2 + 1)

/-- The live object behind handle `h`, if there is one. -/
def Pool.Get {α : Type} (p : Pool α) (h : Nat) : Option α := Pool.liveAt p.slots h

/-- Modelled from the spec: `Pool::Construct`, which "reuses a free slot or grows"; the argument
is the object built by the constructor call; the result is the new pool and the handle. -/
def Pool.Construct {α : Type} (p : Pool α) (v : α) : Pool α × Nat :=
  (⟨(Pool.place p.slots v).1⟩, (Pool.place p.slots v).2)

/-- Bullet.cpp 31-34: `return theMMBulletPool.Construct(*this);`, which builds the new bullet
with the copy constructor. -/
def Bullet.Clone (self : Bullet F T) (theMMBulletPool : Pool (Bullet F T)) :
    Pool (Bullet F T) × Nat :=
  theMMBulletPool.Construct (Bullet.copy self)

/-! ## Predicates of the statements -/

/-- Bodies `b` and `c` have the same property values: position, angle, speed, radius, colour,
opacity, scale, layer, texture, the two additions and the flags. -/
def Body.SameProperties (b c : Body F T) : Prop :=
  c.GetPosition = b.GetPosition ∧ c.GetAngle = b.GetAngle ∧ c.GetSpeed = b.GetSpeed ∧
  c.GetRadius = b.GetRadius ∧ c.GetColor = b.GetColor ∧ c.GetOpacity = b.GetOpacity ∧
  c.GetScale = b.GetScale ∧ c.GetLayer = b.GetLayer ∧ c.GetTexture = b.GetTexture ∧
  c.GetAngleAddition = b.GetAngleAddition ∧ c.GetSpeedAddition = b.GetSpeedAddition ∧
  c.IsFrozen = b.IsFrozen ∧ c.IsDestroyWhenMoveOffScreen = b.IsDestroyWhenMoveOffScreen ∧
  c.IsDestroyWhenTimelineEnd = b.IsDestroyWhenTimelineEnd ∧ c.IsBullet = b.IsBullet

/-! ## Sample values -/

/-- A bullet at `(x, y)` with collision radius `radius`; every other member is zero, false or
null.  Used to instantiate the statements below. -/
def Bullet.sample [LinearOrderedField F] (x y radius : F) : Bullet F Unit :=
  { _position := ⟨x, y⟩, _texture := 0, _color := ⟨0, 0, 0, 0⟩, _scale := 0, _layer := 0,
    _radius := radius, _angle := 0, _speed := 0, _angleAddition := 0, _speedAddition := 0,
    _isFrozen := false, _destroyWhenMoveOffScreen := false, _destroyWhenTimelineEnd := false,
    _appliedTimeline := none, _isBullet := false, _calculatedOffset := ⟨0, 0⟩, _opacity := 0,
    _isNeedToCal := false, _type := none, _colReBoard := none }

/-- A binary32 bullet at `(x, y)` with collision radius `radius` and angle `angle`; every other
member is zero, false or null. -/
def Bullet.sample32 (x y radius angle : Binary32) : Bullet Binary32 Unit :=
  { _position := ⟨x, y⟩, _texture := 0, _color := ⟨.fin 0, .fin 0, .fin 0, .fin 0⟩,
    _scale := .fin 0, _layer := 0, _radius := radius, _angle := angle, _speed := .fin 0,
    _angleAddition := .fin 0, _speedAddition := .fin 0, _isFrozen := false,
    _destroyWhenMoveOffScreen := false, _destroyWhenTimelineEnd := false,
    _appliedTimeline := none, _isBullet := false, _calculatedOffset := ⟨.fin 0, .fin 0⟩,
    _opacity := .fin 0, _isNeedToCal := false, _type := none, _colReBoard := none }

/-! ## Shared lemmas -/

theorem eq_of_mul_self_eq [LinearOrderedField F] {x y : F} (hx : 0 ≤ x) (hy : 0 ≤ y)
    (h : x * x = y * y) : x = y := by
  nlinarith [sq_nonneg (x - y), mul_nonneg hx hy]

theorem IsEuclidean.unique [LinearOrderedField F] {Distance : Vector2 F → Vector2 F → F}
    (hD : IsEuclidean Distance) (p q : Vector2 F) {d : F} (hd0 : 0 ≤ d)
    (hd : d * d = DistanceSquared p q) : Distance p q = d :=
  eq_of_mul_self_eq (hD p q).1 hd0 ((hD p q).2.trans hd.symm)

theorem isEuclidean_sqrt :
    IsEuclidean (fun p q : Vector2 ℝ =>
      Real.sqrt ((p.X - q.X) * (p.X - q.X) + (p.Y - q.Y) * (p.Y - q.Y))) := by
  intro p q
  refine ⟨Real.sqrt_nonneg _, ?_⟩
  exact Real.mul_self_sqrt (add_nonneg (mul_self_nonneg _) (mul_self_nonneg _))


/-! ## Rounding to binary32 -/

namespace Binary32

theorem excessAux_spec : ∀ (fuel n : Nat), n ≤ fuel →
    n < 2 ^ (24 + excessAux fuel n) ∧ (0 < excessAux fuel n → 2 ^ (23 + excessAux fuel n) ≤ n)
  | 0, n, h => by
    have hn : n = 0 := by omega
    subst hn
    simp [excessAux]
  | fuel + 1, n, h => by
    have h24 : (2 : Nat) ^ 24 = 16777216 := by norm_num
    by_cases hlt : n < 2 ^ 24
    · have hstep : excessAux (fuel + 1) n = 0 := by
        rw [excessAux, if_pos hlt]
      rw [hstep]
      exact ⟨by simpa using hlt, fun h0 => absurd h0 (lt_irrefl 0)⟩
    · have hge : 2 ^ 24 ≤ n := Nat.le_of_not_lt hlt
      have hn : n / 2 ≤ fuel := by omega
      obtain ⟨h1, h2⟩ := excessAux_spec fuel (n / 2) hn
      have hstep : excessAux (fuel + 1) n = excessAux fuel (n / 2) + 1 := by
        rw [excessAux, if_neg hlt]
      rw [hstep]
      generalize excessAux fuel (n / 2) = e at h1 h2
      have e1 : 2 ^ (24 + (e + 1)) = 2 * 2 ^ (24 + e) := by ring
      have e2 : 2 ^ (23 + (e + 1)) = 2 * 2 ^ (23 + e) := by ring
      refine ⟨by omega, fun _ => ?_⟩
      rcases Nat.eq_zero_or_pos e with h0 | hpos
      · subst h0
        exact hge
      · have := h2 hpos
        omega

theorem excess_lt (n : Nat) : n < 2 ^ (24 + excess n) := (excessAux_spec n n le_rfl).1

theorem excess_le (n : Nat) (h : 0 < excess n) : 2 ^ (23 + excess n) ≤ n :=
  (excessAux_spec n n le_rfl).2 h

theorem excess_mono {m n : Nat} (h : m ≤ n) : excess m ≤ excess n := by
  rcases Nat.eq_zero_or_pos (excess m) with h0 | hpos
  · omega
  · have h1 := excess_le m hpos
    have h2 := excess_lt n
    have h3 : 2 ^ (23 + excess m) < 2 ^ (24 + excess n) := lt_of_le_of_lt (h1.trans h) h2
    have := (Nat.pow_lt_pow_iff_right (by norm_num : 1 < 2)).1 h3
    omega

theorem excess_mul_pow (m s : Nat) : excess (m * 2 ^ s) ≤ excess m + s := by
  rcases Nat.eq_zero_or_pos (excess (m * 2 ^ s)) with h0 | hpos
  · omega
  · have h1 := excess_le _ hpos
    have h2 := excess_lt m
    have h3 : m * 2 ^ s < 2 ^ (24 + excess m) * 2 ^ s :=
      Nat.mul_lt_mul_of_pos_right h2 (by positivity)
    rw [← pow_add] at h3
    have := (Nat.pow_lt_pow_iff_right (by norm_num : 1 < 2)).1 (lt_of_le_of_lt h1 h3)
    omega


theorem roundMag_of_dvd (s n : Nat) (h : 2 ^ max s (excess n) ∣ n) :
    roundMag s n * 2 ^ s = n := by
  have hr : n % 2 ^ max s (excess n) = 0 := Nat.mod_eq_zero_of_dvd h
  have hpos : 0 < 2 ^ max s (excess n) := by positivity
  have hno : ¬ (2 ^ max s (excess n) < 2 * (n % 2 ^ max s (excess n)) ∨
      (2 * (n % 2 ^ max s (excess n)) = 2 ^ max s (excess n) ∧
        n / 2 ^ max s (excess n) % 2 = 1)) := by
    rw [hr]
    omega
  unfold roundMag
  simp only [if_neg hno]
  rw [mul_assoc, ← pow_add, Nat.sub_add_cancel (le_max_left _ _), Nat.div_mul_cancel h]

theorem roundAt_exact (s : Nat) (m : Int) (h : Representable m) :
    roundAt s (m * ((2 ^ s : Nat) : Int)) = fin m := by
  obtain ⟨hmod, hbound⟩ := h
  have habs : (m * ((2 ^ s : Nat) : Int)).natAbs = m.natAbs * 2 ^ s := by
    rw [Int.natAbs_mul, Int.natAbs_ofNat]
  have hdvd : 2 ^ max s (excess (m.natAbs * 2 ^ s)) ∣ m.natAbs * 2 ^ s := by
    have h1 : 2 ^ (excess m.natAbs + s) ∣ m.natAbs * 2 ^ s := by
      rw [pow_add]
      exact Nat.mul_dvd_mul (Nat.dvd_of_mod_eq_zero hmod) (dvd_refl _)
    have h2 : max s (excess (m.natAbs * 2 ^ s)) ≤ excess m.natAbs + s :=
      max_le (by omega) (excess_mul_pow _ _)
    exact (pow_dvd_pow 2 h2).trans h1
  have hmag : roundMag s (m.natAbs * 2 ^ s) = m.natAbs :=
    Nat.eq_of_mul_eq_mul_right (by positivity : 0 < 2 ^ s) (roundMag_of_dvd _ _ hdvd)
  unfold roundAt
  simp only [habs, hmag, if_neg (Nat.not_le.2 hbound)]
  have hpos : (0 : Int) < ((2 ^ s : Nat) : Int) := by positivity
  by_cases hm : m < 0
  · have : m * ((2 ^ s : Nat) : Int) < 0 := mul_neg_of_neg_of_pos hm hpos
    rw [if_pos this]
    congr 1
    omega
  · have : ¬ m * ((2 ^ s : Nat) : Int) < 0 := by
      have := mul_nonneg (not_lt.1 hm) hpos.le
      omega
    rw [if_neg this]
    congr 1
    omega

theorem roundMag_zero_le (n D : Nat) (hD : D % 2 ^ excess D = 0) (h : n ≤ D) :
    roundMag 0 n ≤ D := by
  have he : max 0 (excess n) = excess n := by simp
  unfold roundMag
  simp only [he, Nat.sub_zero]
  have hdm := Nat.div_add_mod n (2 ^ excess n)
  have hpos : 0 < 2 ^ excess n := by positivity
  have hrlt : n % 2 ^ excess n < 2 ^ excess n := Nat.mod_lt _ hpos
  split
  · next hup =>
    have hr0 : 0 < n % 2 ^ excess n := by omega
    have hdvd : 2 ^ excess n ∣ D :=
      (pow_dvd_pow 2 (excess_mono h)).trans (Nat.dvd_of_mod_eq_zero hD)
    obtain ⟨c, hc⟩ := hdvd
    have hq : n / 2 ^ excess n < c := by
      by_contra hcon
      have : 2 ^ excess n * c ≤ 2 ^ excess n * (n / 2 ^ excess n) :=
        Nat.mul_le_mul_left _ (not_lt.1 hcon)
      omega
    calc (n / 2 ^ excess n + 1) * 2 ^ excess n ≤ c * 2 ^ excess n :=
          Nat.mul_le_mul_right _ hq
      _ = D := by rw [hc, mul_comm]
  · calc n / 2 ^ excess n * 2 ^ excess n ≤ n := Nat.div_mul_le_self _ _
      _ ≤ D := h

theorem lt_roundAt_of_le (x d : Int) (hd0 : 0 ≤ d) (hd : Representable d) (h : x ≤ d) :
    lt (fin d) (roundAt 0 x) = false := by
  unfold roundAt
  by_cases hx : x < 0
  · simp only [hx, if_true, decide_True]
    split
    · rfl
    · simp only [lt, decide_eq_false_iff_not, not_lt]
      omega
  · have hle : roundMag 0 x.natAbs ≤ d.natAbs :=
      roundMag_zero_le _ _ hd.1 (by omega)
    have hb := hd.2
    simp only [hx, if_false, if_neg (Nat.not_le.2 (lt_of_le_of_lt hle hb))]
    simp only [lt, decide_eq_false_iff_not, not_lt]
    omega

theorem roundAt_zero_exact (m : Int) (h : Representable m) : roundAt 0 m = fin m := by
  have := roundAt_exact 0 m h
  simpa using this

theorem lt_add_true_imp (d R k : Int) (hd0 : 0 ≤ d) (hd : Representable d)
    (h : lt (fin d) (add (fin R) (fin k)) = true) : d < R + k := by
  by_contra hcon
  have hfalse : lt (fin d) (add (fin R) (fin k)) = false :=
    lt_roundAt_of_le (R + k) d hd0 hd (not_lt.1 hcon)
  rw [hfalse] at h
  exact Bool.false_ne_true h

theorem lt_add_tangent (d R k : Int) (hd0 : 0 ≤ d) (hd : Representable d) (h : d = R + k) :
    lt (fin d) (add (fin R) (fin k)) = false :=
  lt_roundAt_of_le (R + k) d hd0 hd (le_of_eq h.symm)

theorem lt_add_of_exact (d R k : Int) (h : d < R + k) (hs : Representable (R + k)) :
    lt (fin d) (add (fin R) (fin k)) = true := by
  show lt (fin d) (roundAt 0 (R + k)) = true
  rw [roundAt_zero_exact _ hs]
  simpa [lt] using h

end Binary32

/-! ## Circle collision (Bullet.cpp 41-44, 51-54) -/

/-- C1, as the code has it in binary32: for a bullet of finite radius `R` and a circle of finite
radius `k`, when `Vector2::Distance` returns the Euclidean distance `d` of the two centres,
`Bullet::IsCollided(pos, r)` is the comparison of `d` with the binary32 sum of the radii (their
sum rounded to nearest).  So it is true only if `d < R + k`; at tangency, `d = R + k`, it is
false; and it is true when `d < R + k` and the sum `R + k` is a binary32 number, that is when
the sum of the radii is not rounded. -/
theorem Bullet.IsCollided_binary32
    (Distance : Vector2 Binary32 → Vector2 Binary32 → Binary32)
    (b : Bullet Binary32 T) (pos : Vector2 Binary32) (r : Binary32) (d R k : Int)
    (hD : Binary32.ExactDistance Distance b.GetPosition pos d)
    (hR : b.GetRadius = Binary32.fin R) (hr : r = Binary32.fin k) :
    b.IsCollided Distance pos r
        = Binary32.lt (Binary32.fin d) (Binary32.add (Binary32.fin R) (Binary32.fin k)) ∧
      (b.IsCollided Distance pos r = true → d < R + k) ∧
      (d = R + k → b.IsCollided Distance pos r = false) ∧
      (d < R + k → Binary32.Representable (R + k) → b.IsCollided Distance pos r = true) := by
  obtain ⟨hdist, hd0, hdr, _⟩ := hD
  have hval : b.IsCollided Distance pos r
      = Binary32.lt (Binary32.fin d) (Binary32.add (Binary32.fin R) (Binary32.fin k)) := by
    unfold Bullet.IsCollided
    rw [hdist, hR, hr]
    rfl
  refine ⟨hval, fun ht => ?_, fun htan => ?_, fun hlt hs => ?_⟩
  · exact Binary32.lt_add_true_imp d R k hd0 hdr (hval ▸ ht)
  · rw [hval]
    exact Binary32.lt_add_tangent d R k hd0 hdr htan
  · rw [hval]
    exact Binary32.lt_add_of_exact d R k hlt hs

set_option maxRecDepth 100000 in
/-- C1 at a concrete input: a bullet of radius 2 at the origin against the circle of radius 3
centred at (4, 0), with the distance computed along the x axis; the distance 4 is below the sum
5 of the radii and the answer is true. -/
theorem Bullet.IsCollided_binary32_witness :
    Binary32.ExactDistance (fun p q => Binary32.sub q.X p.X)
        (Bullet.sample32 (.lit 0 0) (.lit 0 0) (.lit 2 149) (.lit 0 0)).GetPosition
        ⟨.lit 4 149, .lit 0 0⟩ (Binary32.units 4 149) ∧
      (Bullet.sample32 (.lit 0 0) (.lit 0 0) (.lit 2 149) (.lit 0 0)).IsCollided
        (fun p q => Binary32.sub q.X p.X) ⟨.lit 4 149, .lit 0 0⟩ (.lit 3 149) = true :=
  have hD : Binary32.ExactDistance (fun p q => Binary32.sub q.X p.X)
      (Bullet.sample32 (.lit 0 0) (.lit 0 0) (.lit 2 149) (.lit 0 0)).GetPosition
      ⟨.lit 4 149, .lit 0 0⟩ (Binary32.units 4 149) :=
    ⟨by decide, by decide, by decide,
      Binary32.units 0 0, Binary32.units 0 0, Binary32.units 4 149, Binary32.units 0 0,
      rfl, rfl, by decide⟩
  ⟨hD, (Bullet.IsCollided_binary32 _ _ _ _ _ (Binary32.units 2 149) (Binary32.units 3 149)
    hD rfl rfl).2.2.2 (by decide) (by decide)⟩

set_option maxRecDepth 100000 in
/-- C1, as stated, fails: a bullet of radius `0.1f` at the origin against the circle of radius
`0.4f` centred at (0.5, 0).  The Euclidean distance is 0.5, strictly below the sum of the radii
`0.1f + 0.4f = 0.5 + 2^(-27)`, and for every `Vector2::Distance` that returns 0.5 there the
code compares 0.5 with the rounded sum 0.5 and answers false. -/
theorem Bullet.IsCollided_rounded_sum :
    (0 ≤ Binary32.units 1 148 ∧ Binary32.Representable (Binary32.units 1 148) ∧
        Binary32.units 1 148 * Binary32.units 1 148
          = (Binary32.units 0 0 - Binary32.units 1 148)
              * (Binary32.units 0 0 - Binary32.units 1 148)
            + (Binary32.units 0 0 - Binary32.units 0 0)
              * (Binary32.units 0 0 - Binary32.units 0 0)) ∧
      Binary32.units 1 148 < Binary32.units 13421773 122 + Binary32.units 13421773 124 ∧
      Binary32.add (.lit 13421773 122) (.lit 13421773 124) = .lit 1 148 ∧
      (∀ Distance : Vector2 Binary32 → Vector2 Binary32 → Binary32,
        Distance (Bullet.sample32 (.lit 0 0) (.lit 0 0) (.lit 13421773 122) (.lit 0 0)).GetPosition
            ⟨.lit 1 148, .lit 0 0⟩ = .lit 1 148 →
        (Bullet.sample32 (.lit 0 0) (.lit 0 0) (.lit 13421773 122) (.lit 0 0)).IsCollided
          Distance ⟨.lit 1 148, .lit 0 0⟩ (.lit 13421773 124) = false) := by
  refine ⟨⟨by decide, by decide, by decide⟩, by decide, by decide, fun Distance h => ?_⟩
  unfold Bullet.IsCollided
  rw [h]
  decide

/-- C10: when `Vector2::Distance` is the Euclidean distance, bullet-to-bullet collision is
symmetric: `a.IsCollided(b)` equals `b.IsCollided(a)`. -/
theorem Bullet.IsCollidedBullet_symm [LinearOrderedField F]
    (Distance : Vector2 F → Vector2 F → F) (hD : IsEuclidean Distance)
    (a b : Bullet F T) :
    a.IsCollidedBullet Distance b = b.IsCollidedBullet Distance a := by
  have hsq : DistanceSquared b.GetPosition a.GetPosition
      = DistanceSquared a.GetPosition b.GetPosition := by
    unfold DistanceSquared
    ring
  have hdist : Distance a.GetPosition b.GetPosition = Distance b.GetPosition a.GetPosition :=
    hD.unique _ _ (hD _ _).1 ((hD _ _).2.trans hsq)
  unfold Bullet.IsCollidedBullet Bullet.IsCollided
  rw [hdist]
  show decide (_ < a.GetRadius + b.GetRadius) = decide (_ < b.GetRadius + a.GetRadius)
  simp only [add_comm a.GetRadius b.GetRadius]

/-- C10 at a concrete input: bullets of radius 2 at the origin and of radius 4 at (3, 4). -/
theorem Bullet.IsCollidedBullet_symm_witness :
    IsEuclidean (fun p q : Vector2 ℝ =>
      Real.sqrt ((p.X - q.X) * (p.X - q.X) + (p.Y - q.Y) * (p.Y - q.Y))) ∧
    (Bullet.sample (0 : ℝ) 0 2).IsCollidedBullet
        (fun p q : Vector2 ℝ =>
          Real.sqrt ((p.X - q.X) * (p.X - q.X) + (p.Y - q.Y) * (p.Y - q.Y)))
        (Bullet.sample (3 : ℝ) 4 4)
      = (Bullet.sample (3 : ℝ) 4 4).IsCollidedBullet
        (fun p q : Vector2 ℝ =>
          Real.sqrt ((p.X - q.X) * (p.X - q.X) + (p.Y - q.Y) * (p.Y - q.Y)))
        (Bullet.sample (0 : ℝ) 0 2) :=
  ⟨isEuclidean_sqrt, Bullet.IsCollidedBullet_symm _ isEuclidean_sqrt _ _⟩

/-! ## Rebound (Body.h 172-174) -/

/-- C9: two calls of `Body::Rebound` in a row with the same normal give the body its angle
back. -/
theorem Body.Rebound_Rebound_GetAngle [LinearOrderedField F] (body : Body F T) (normal : F) :
    (Body.Rebound (Body.Rebound body normal) normal).GetAngle = body.GetAngle := by
  show normal * ((2 : Int) : F) - (normal * ((2 : Int) : F) - body._angle) = body._angle
  ring

/-! ## Position round trip (Body.h 43-52) -/

/-- C8: after `SetPosition(x, y)`, `GetPosition` is `(x, y)`; after `SetX(x)` the X coordinate
is `x`; after `SetY(y)` the Y coordinate is `y`. -/
theorem Body.GetPosition_SetPosition (b : Body F T) (x y : F) :
    (b.SetPosition x y).GetPosition = ⟨x, y⟩ ∧
      (b.SetX x).GetPosition.X = x ∧ (b.SetY y).GetPosition.Y = y :=
  ⟨rfl, rfl, rfl⟩

/-! ## Box collision (Bullet.cpp 46-49) -/

/-- C6: `Bullet::IsCollided(box)` is the result of the box-against-circle test
`BoundingBox::Intersects` on the circle whose centre is the current position of the bullet and
whose radius is its current radius: the members as they are at the call, and so the values
of the last `SetPosition` and `SetRadius`. -/
theorem Bullet.IsCollidedBox_eq (Intersects : BoundingBox F → Vector2 F → F → Bool)
    (b : Bullet F T) (rect : BoundingBox F) :
    b.IsCollidedBox Intersects rect = Intersects rect b._position b._radius ∧
      (∀ x y r : F,
        Bullet.IsCollidedBox Intersects
            { b with toBody := (b.toBody.SetPosition x y).SetRadius r } rect
          = Intersects rect ⟨x, y⟩ r) :=
  ⟨rfl, fun _ _ _ => rfl⟩

/-! ## The invariant of Body -/

theorem Pool.liveAt_place {α : Type} (l : List (Option α)) (v : α) :
    Pool.liveAt (Pool.place l v).1 (Pool.place l v).2 = some v := by
  induction l with
  | nil => rfl
  | cons s rest ih =>
    cases s with
    | none => rfl
    | some x => simpa [Pool.place, Pool.liveAt] using ih

theorem Pool.liveAt_place_free {α : Type} (l : List (Option α)) (v : α) :
    Pool.liveAt l (Pool.place l v).2 = none := by
  induction l with
  | nil => rfl
  | cons s rest ih =>
    cases s with
    | none => rfl
    | some x => simpa [Pool.place, Pool.liveAt] using ih

theorem Pool.liveAt_place_of_live {α : Type} (l : List (Option α)) (v : α) (i : Nat) (x : α)
    (h : Pool.liveAt l i = some x) : Pool.liveAt (Pool.place l v).1 i = some x := by
  induction l generalizing i with
  | nil => simp [Pool.liveAt] at h
  | cons s rest ih =>
    cases s with
    | none =>
      cases i with
      | zero => simp [Pool.liveAt] at h
      | succ j => simpa [Pool.place, Pool.liveAt] using h
    | some y =>
      cases i with
      | zero => simpa [Pool.place, Pool.liveAt] using h
      | succ j => simpa [Pool.place, Pool.liveAt] using ih j (by simpa [Pool.liveAt] using h)

/-- C7: `Clone` of a bullet `s` yields a handle to a live bullet `c` with the type and the
rebound-board reference of `s` and the Body property values of `s` (position, angle, speed,
radius, colour, opacity, scale, layer, additions, flags); the handle was free before, so `c` is
not the storage of any bullet that was live; and every bullet that was live in the pool, `s`
itself when it is pooled, is behind its handle unchanged. -/
theorem Bullet.Clone_copies (s : Bullet F T) (pool : Pool (Bullet F T)) :
    (∃ c : Bullet F T, (s.Clone pool).1.Get (s.Clone pool).2 = some c ∧
        c._type = s._type ∧ c._colReBoard = s._colReBoard ∧
        Body.SameProperties s.toBody c.toBody) ∧
      pool.Get (s.Clone pool).2 = none ∧
      (∀ (i : Nat) (x : Bullet F T), pool.Get i = some x → (s.Clone pool).1.Get i = some x) := by
  refine ⟨⟨Bullet.copy s, Pool.liveAt_place _ _, rfl, rfl, ?_⟩,
    Pool.liveAt_place_free _ _, fun i x h => Pool.liveAt_place_of_live _ _ i x h⟩
  simp [Body.SameProperties, Bullet.copy, Body.copy, Body.GetPosition, Body.GetAngle,
    Body.GetSpeed, Body.GetRadius, Body.GetColor, Body.GetOpacity, Body.GetScale, Body.GetLayer,
    Body.GetTexture, Body.GetAngleAddition, Body.GetSpeedAddition, Body.IsFrozen,
    Body.IsDestroyWhenMoveOffScreen, Body.IsDestroyWhenTimelineEnd, Body.IsBullet]

end ModernMagic
